import Mathlib

/-!
Verification of the reactor-antineutrino IBD kernels against their
natural-language specification.

The numeric kernels (`_enu` of both repository variants,
`_jacobian_dEnu_dEe`, `_osc_prob`) are embedded over exact rationals.
The irrational primitives `sqrt` and `sin` are passed as explicit
function parameters, so every definition stays executable and every
theorem quantifies over the primitive; theorems needing facts about
`sqrt` state them as hypotheses satisfied by the real square root.
IEEE division outcomes (finite / signed infinity / NaN), which matter
for the `corr == 0` edge case, are captured by the type `FpVal` and the
classifying division `fpdiv`.
-/

/-- Outcome of an IEEE floating-point division whose operands are exact
rationals: a finite quotient, a signed infinity, or NaN. -/
inductive FpVal where
  | fin : ℚ → FpVal
  | posInf : FpVal
  | negInf : FpVal
  | nan : FpVal
deriving DecidableEq

/-- An `FpVal` is infinite iff it is a signed infinity. -/
def FpVal.isInfinite : FpVal → Bool
  | posInf => true
  | negInf => true
  | _ => false

/-- An `FpVal` is finite iff it is a finite quotient. -/
def FpVal.isFinite : FpVal → Bool
  | fin _ => true
  | _ => false

/-- Division with IEEE outcome classification: a finite quotient when the
divisor is nonzero, the signed infinity carrying the dividend's sign when a
nonzero dividend is divided by zero, and NaN for zero over zero. -/
def fpdiv (a b : ℚ) : FpVal :=
  if b ≠ 0 then FpVal.fin (a / b)
  else if 0 < a then FpVal.posInf
  else if a < 0 then FpVal.negInf
  else FpVal.nan

/-- Flag adjustment shared by both `_enu` variants and the Jacobian kernel:
when `use_edep` is set the electron rest mass is subtracted from the input
energy to obtain the kinetic energy. -/
def eeAdjusted (ElectronMass : ℚ) (use_edep : Bool) (Ee : ℚ) : ℚ :=
  if use_edep then Ee - ElectronMass else Ee

/-- Velocity branch of `reactornueosc/EeToEnu.py::_enu`:
`Ve = sqrt(1 - ElectronMass^2/(Ee*Ee))` when `Ee > ElectronMass`, else `0`. -/
def enuVe (sq : ℚ → ℚ) (ElectronMass Ee : ℚ) : ℚ :=
  if Ee > ElectronMass then sq (1 - ElectronMass ^ 2 / (Ee * Ee)) else 0

/-- Clamp branch of `reactornueosc/EeToEnu.py::_enu`: at or below the
threshold `Ee` is replaced by the electron rest mass. -/
def enuEeClamped (ElectronMass Ee : ℚ) : ℚ :=
  if Ee > ElectronMass then Ee else ElectronMass

/-- `delta = 0.5*(NeutronMass^2 - ProtonMass^2 - ElectronMass^2)/ProtonMass`
from `reactornueosc/EeToEnu.py::_enu`. -/
def enuDelta (ElectronMass ProtonMass NeutronMass : ℚ) : ℚ :=
  1/2 * (NeutronMass ^ 2 - ProtonMass ^ 2 - ElectronMass ^ 2) / ProtonMass

/-- The numerator `Ee0 = Ee + delta` of `reactornueosc/EeToEnu.py::_enu`,
with `Ee` already flag-adjusted and clamped. -/
def enuEe0 (ElectronMass ProtonMass NeutronMass : ℚ) (use_edep : Bool) (Ee : ℚ) : ℚ :=
  enuEeClamped ElectronMass (eeAdjusted ElectronMass use_edep Ee) +
    enuDelta ElectronMass ProtonMass NeutronMass

/-- The denominator `corr = 1 - epsilon_e*(1 - Ve*ctheta)` of
`reactornueosc/EeToEnu.py::_enu`, with `epsilon_e = Ee/ProtonMass` computed
from the flag-adjusted, clamped `Ee`. -/
def enuCorr (sq : ℚ → ℚ) (ElectronMass ProtonMass : ℚ) (use_edep : Bool) (Ee ctheta : ℚ) : ℚ :=
  1 - enuEeClamped ElectronMass (eeAdjusted ElectronMass use_edep Ee) / ProtonMass *
    (1 - enuVe sq ElectronMass (eeAdjusted ElectronMass use_edep Ee) * ctheta)

/-- One loop iteration of `reactornueosc/EeToEnu.py::_enu`:
`Result[i] = Ee0/corr` over exact rationals. -/
def enuElem (sq : ℚ → ℚ) (ElectronMass ProtonMass NeutronMass : ℚ) (use_edep : Bool)
    (Ee ctheta : ℚ) : ℚ :=
  enuEe0 ElectronMass ProtonMass NeutronMass use_edep Ee /
    enuCorr sq ElectronMass ProtonMass use_edep Ee ctheta

/-- One loop iteration of `reactornueosc/EeToEnu.py::_enu` with the final
division classified IEEE-style (the kernel applies no guard on `corr`). -/
def enuElemFp (sq : ℚ → ℚ) (ElectronMass ProtonMass NeutronMass : ℚ) (use_edep : Bool)
    (Ee ctheta : ℚ) : FpVal :=
  fpdiv (enuEe0 ElectronMass ProtonMass NeutronMass use_edep Ee)
    (enuCorr sq ElectronMass ProtonMass use_edep Ee ctheta)

/-- The kernel `reactornueosc/EeToEnu.py::_enu`: the loop
`for i, (Ee, ctheta) in enumerate(zip(EeIn, CosThetaIn))` writing
`Result[i] = Ee0/corr`, as the list of written elements. -/
def _enu (sq : ℚ → ℚ) (EeIn CosThetaIn : List ℚ)
    (ElectronMass ProtonMass NeutronMass : ℚ) (use_edep : Bool) : List ℚ :=
  List.zipWith (enuElem sq ElectronMass ProtonMass NeutronMass use_edep) EeIn CosThetaIn

/-- The kernel `reactornueosc/EeToEnu.py::_enu` with IEEE-classified
divisions. -/
def enuFp (sq : ℚ → ℚ) (EeIn CosThetaIn : List ℚ)
    (ElectronMass ProtonMass NeutronMass : ℚ) (use_edep : Bool) : List FpVal :=
  List.zipWith (enuElemFp sq ElectronMass ProtonMass NeutronMass use_edep) EeIn CosThetaIn

/-- One loop iteration of `dgf_reactoranueosc/EeToEnu.py::_enu`: identical to
the `reactornueosc` variant except that below the threshold only the velocity
is zeroed and `Ee` is not clamped to the electron rest mass. -/
def enuElemDgf (sq : ℚ → ℚ) (ElectronMass ProtonMass NeutronMass : ℚ) (use_edep : Bool)
    (Ee ctheta : ℚ) : ℚ :=
  let EeA := eeAdjusted ElectronMass use_edep Ee
  let Ve := if EeA > ElectronMass then sq (1 - ElectronMass * ElectronMass / (EeA * EeA)) else 0
  let epsilon_e := EeA / ProtonMass
  let Ee0 := EeA + 1/2 * (NeutronMass * NeutronMass - ProtonMass * ProtonMass -
    ElectronMass * ElectronMass) / ProtonMass
  let corr := 1 - epsilon_e * (1 - Ve * ctheta)
  Ee0 / corr

/-- The kernel `dgf_reactoranueosc/EeToEnu.py::_enu` as the list of written
elements. -/
def _enu_dgf (sq : ℚ → ℚ) (EeIn CosThetaIn : List ℚ)
    (ElectronMass ProtonMass NeutronMass : ℚ) (use_edep : Bool) : List ℚ :=
  List.zipWith (enuElemDgf sq ElectronMass ProtonMass NeutronMass use_edep) EeIn CosThetaIn

/-- One loop iteration of
`reactornueosc/Jacobian_dEnu_dEe.py::_jacobian_dEnu_dEe`. -/
def jacobianElem (sq : ℚ → ℚ) (ElectronMass ProtonMass : ℚ) (use_edep : Bool)
    (Enu Ee ctheta : ℚ) : ℚ :=
  let EeA := eeAdjusted ElectronMass use_edep Ee
  if EeA ≤ ElectronMass then 0
  else
    let Ve := sq (1 - ElectronMass ^ 2 / (EeA * EeA))
    let nominator := ProtonMass + Enu * (1 - ctheta / Ve)
    let denominator := ProtonMass - EeA * (1 - Ve * ctheta)
    if denominator ≤ 0 then 0 else nominator / denominator

/-- The kernel `reactornueosc/Jacobian_dEnu_dEe.py::_jacobian_dEnu_dEe`:
the loop over `zip(EnuIn, EeIn, CosThetaIn)` as the list of written
elements. -/
def _jacobian_dEnu_dEe (sq : ℚ → ℚ) (EnuIn EeIn CosThetaIn : List ℚ)
    (ElectronMass ProtonMass : ℚ) (use_edep : Bool) : List ℚ :=
  List.zipWith (fun Enu p => jacobianElem sq ElectronMass ProtonMass use_edep Enu p.1 p.2)
    EnuIn (EeIn.zip CosThetaIn)

/-- One loop iteration of
`reactornueosc/NueSurvivalProbability.py::_osc_prob`, with the derived
scalar quantities recomputed per element (they do not depend on `E`). -/
def oscProbElem (sinFn sq : ℚ → ℚ)
    (L SinSq2Theta12 SinSq2Theta13 DeltaMSq21 DeltaMSq32 nmo oscprobArgConversion : ℚ)
    (E : ℚ) : ℚ :=
  let _DeltaMSq32 := nmo * DeltaMSq32
  let _DeltaMSq31 := nmo * DeltaMSq32 + DeltaMSq21
  let _SinSqTheta12 := 1/2 * (1 - sq (1 - SinSq2Theta12))
  let _CosSqTheta12 := 1 - _SinSqTheta12
  let _CosQuTheta13 := (1/2 * (1 - sq (1 - SinSq2Theta13))) ^ 2
  let sinCommonArg := oscprobArgConversion * L / 4
  let L4E := sinCommonArg / E
  1 - SinSq2Theta13 *
      (_SinSqTheta12 * sinFn (_DeltaMSq32 * L4E) ^ 2 +
        _CosSqTheta12 * sinFn (_DeltaMSq31 * L4E) ^ 2) -
    SinSq2Theta12 * _CosQuTheta13 * sinFn (DeltaMSq21 * L4E) ^ 2

/-- The kernel `reactornueosc/NueSurvivalProbability.py::_osc_prob` as the
list of written elements (one per energy). -/
def _osc_prob (sinFn sq : ℚ → ℚ) (E : List ℚ)
    (L SinSq2Theta12 SinSq2Theta13 DeltaMSq21 DeltaMSq32 nmo oscprobArgConversion : ℚ) :
    List ℚ :=
  E.map (oscProbElem sinFn sq L SinSq2Theta12 SinSq2Theta13 DeltaMSq21 DeltaMSq32 nmo
    oscprobArgConversion)

/-- A stub square-root function returning the exact value `4/5`; it agrees
with the real square root at the argument `16/25`. -/
def sqStub45 : ℚ → ℚ := fun _ => 4/5

/-- A stub square-root function returning `96681/100000`, a value in `(0, 1]`
close to `sqrt(1 - ElectronMass^2/4)` for the PDG electron mass. -/
def sqStub967 : ℚ → ℚ := fun _ => 96681/100000

/-- PDG electron mass in MeV, `0.5109989461`, as an exact rational. -/
def electronMassPDG : ℚ := 5109989461/10000000000

/-- PDG proton mass in MeV, `938.272081`, as an exact rational. -/
def protonMassPDG : ℚ := 938272081/1000000

/-- PDG neutron mass in MeV, `939.565413`, as an exact rational. -/
def neutronMassPDG : ℚ := 939565413/1000000

/- List indexing helpers shared by the per-element theorems. -/

/-- Indexing a `zipWith` inside bounds yields the function applied to the
indexed operands. -/
lemma getElem?_zipWith_of_lt {α β γ : Type} (f : α → β → γ) (l1 : List α) (l2 : List β)
    (i : ℕ) (h1 : i < l1.length) (h2 : i < l2.length) :
    (List.zipWith f l1 l2)[i]? = some (f l1[i] l2[i]) := by
  rw [List.getElem?_eq_getElem (by rw [List.length_zipWith]; omega)]
  rw [List.getElem_zipWith]

/-- Indexing a `map` inside bounds yields the function applied to the indexed
operand. -/
lemma getElem?_map_of_lt {α β : Type} (f : α → β) (l : List α) (i : ℕ)
    (h : i < l.length) :
    (l.map f)[i]? = some (f l[i]) := by
  rw [List.getElem?_eq_getElem (by rw [List.length_map]; omega)]
  rw [List.getElem_map]

/-- Above the threshold the `reactornueosc` energy-transform element is the
unclamped closed-form expression. -/
lemma enuElem_of_lt (sq : ℚ → ℚ) (me mp mn : ℚ) (flag : Bool) (Ee ctheta : ℚ)
    (h : me < eeAdjusted me flag Ee) :
    enuElem sq me mp mn flag Ee ctheta =
      (eeAdjusted me flag Ee + 1/2 * (mn ^ 2 - mp ^ 2 - me ^ 2) / mp) /
        (1 - eeAdjusted me flag Ee / mp *
          (1 - sq (1 - me ^ 2 / (eeAdjusted me flag Ee * eeAdjusted me flag Ee)) * ctheta)) := by
  unfold enuElem enuEe0 enuCorr enuVe enuEeClamped enuDelta
  rw [if_pos h, if_pos h]

/-- C1: for every element whose flag-adjusted energy `E` strictly exceeds the
electron rest mass, the energy-transform kernel writes
`Result[i] = E0/corr` with `delta = 0.5*(m_n^2 - m_p^2 - m_e^2)/m_p`,
`v = sqrt(1 - m_e^2/E^2)`, `epsilon = E/m_p`, `E0 = E + delta`, and
`corr = 1 - epsilon*(1 - v*cos(theta)[i])`. -/
theorem enu_writes_formula_above_threshold_C1
    (sq : ℚ → ℚ) (me mp mn : ℚ) (flag : Bool) (EeIn CosThetaIn : List ℚ) (i : ℕ)
    (h1 : i < EeIn.length) (h2 : i < CosThetaIn.length)
    (hE : me < eeAdjusted me flag EeIn[i]) :
    (_enu sq EeIn CosThetaIn me mp mn flag)[i]? =
      some (
        let E := eeAdjusted me flag EeIn[i]
        let delta := 1/2 * (mn ^ 2 - mp ^ 2 - me ^ 2) / mp
        let v := sq (1 - me ^ 2 / (E * E))
        let epsilon := E / mp
        let E0 := E + delta
        let corr := 1 - epsilon * (1 - v * CosThetaIn[i])
        E0 / corr) := by
  rw [_enu, getElem?_zipWith_of_lt _ _ _ i h1 h2, enuElem_of_lt _ _ _ _ _ _ _ hE]

/-- C1 witness: the theorem applied at `sq = sqStub45`, `me = 3`, `mp = 10`,
`mn = 3`, `EeIn = [5]`, `CosThetaIn = [0]`, `i = 0`. -/
theorem enu_writes_formula_above_threshold_C1_witness :
    (_enu sqStub45 [5] [0] 3 10 3 false)[0]? =
      some (
        let E := eeAdjusted 3 false (5:ℚ)
        let delta := 1/2 * ((3:ℚ) ^ 2 - 10 ^ 2 - 3 ^ 2) / 10
        let v := sqStub45 (1 - (3:ℚ) ^ 2 / (E * E))
        let epsilon := E / 10
        let E0 := E + delta
        let corr := 1 - epsilon * (1 - v * (0:ℚ))
        E0 / corr) := by
  exact enu_writes_formula_above_threshold_C1 sqStub45 3 10 3 false [5] [0] 0
    (by norm_num) (by norm_num) (by norm_num [eeAdjusted])

/-- C2: per-element case analysis of the Jacobian kernel: exactly `0` at or
below threshold, exactly `0` for a non-positive denominator, otherwise
`nominator/denominator`; every element is written and the square-root
argument is positive above threshold (no NaN). -/
theorem jacobian_cases_C2 (sq : ℚ → ℚ) (me mp : ℚ) (flag : Bool)
    (EnuIn EeIn CosThetaIn : List ℚ) :
    (_jacobian_dEnu_dEe sq EnuIn EeIn CosThetaIn me mp flag).length
        = min EnuIn.length (min EeIn.length CosThetaIn.length)
    ∧ (∀ (i : ℕ) (h1 : i < EnuIn.length) (h2 : i < EeIn.length) (h3 : i < CosThetaIn.length),
        (_jacobian_dEnu_dEe sq EnuIn EeIn CosThetaIn me mp flag)[i]? =
          some (
            let E := eeAdjusted me flag (EeIn.get ⟨i, by omega⟩)
            let v := sq (1 - me ^ 2 / (E * E))
            let nominator := mp + (EnuIn.get ⟨i, by omega⟩) * (1 - (CosThetaIn.get ⟨i, by omega⟩) / v)
            let denominator := mp - E * (1 - v * (CosThetaIn.get ⟨i, by omega⟩))
            if E ≤ me then 0 else if denominator ≤ 0 then 0 else nominator / denominator))
    ∧ (∀ Ee : ℚ, 0 ≤ me → me < eeAdjusted me flag Ee →
        0 < 1 - me ^ 2 / (eeAdjusted me flag Ee * eeAdjusted me flag Ee)) := by
  refine ⟨?_, ?_, ?_⟩
  · simp [_jacobian_dEnu_dEe, List.length_zipWith, List.length_zip]
  · intro i h1 h2 h3
    rw [_jacobian_dEnu_dEe,
      getElem?_zipWith_of_lt _ _ _ i h1 (by rw [List.length_zip]; omega)]
    rw [List.getElem_zip]
    rfl
  · intro Ee h0 hlt
    have hE : 0 < eeAdjusted me flag Ee := lt_of_le_of_lt h0 hlt
    rw [sub_pos, div_lt_one (by positivity)]
    nlinarith

/-- C2 witness: the per-element case applied at `sq = sqStub45`, `me = 3`,
`mp = 10`, `EnuIn = [7]`, `EeIn = [5]`, `CosThetaIn = [0]`, `i = 0`, together
with the positivity part at `Ee = 5`. -/
theorem jacobian_cases_C2_witness :
    ((_jacobian_dEnu_dEe sqStub45 [7] [5] [0] 3 10 false)[0]? =
      some (
        let E := eeAdjusted 3 false (5:ℚ)
        let v := sqStub45 (1 - (3:ℚ) ^ 2 / (E * E))
        let nominator := 10 + (7:ℚ) * (1 - (0:ℚ) / v)
        let denominator := 10 - E * (1 - v * (0:ℚ))
        if E ≤ 3 then 0 else if denominator ≤ 0 then 0 else nominator / denominator))
    ∧ 0 < 1 - (3:ℚ) ^ 2 / (eeAdjusted 3 false 5 * eeAdjusted 3 false 5) := by
  refine ⟨?_, ?_⟩
  · exact (jacobian_cases_C2 sqStub45 3 10 false [7] [5] [0]).2.1 0
      (by norm_num) (by norm_num) (by norm_num)
  · exact (jacobian_cases_C2 sqStub45 3 10 false [7] [5] [0]).2.2 5
      (by norm_num) (by norm_num [eeAdjusted])

/-- C3: each element of the oscillation-probability kernel output equals the
specified survival-probability formula in the derived quantities, with
`L4E = conversion*L/(4*E[i])`. -/
theorem osc_prob_formula_C3 (sinFn sq : ℚ → ℚ) (E : List ℚ)
    (L s12 s13 dm21 dm32 nmo conv : ℚ) (i : ℕ) (hi : i < E.length) :
    (_osc_prob sinFn sq E L s12 s13 dm21 dm32 nmo conv)[i]? =
      some (
        let DeltaMSq32signed := nmo * dm32
        let DeltaMSq31 := nmo * dm32 + dm21
        let SinSqTheta12 := 1/2 * (1 - sq (1 - s12))
        let CosSqTheta12 := 1 - SinSqTheta12
        let CosQuTheta13 := (1/2 * (1 - sq (1 - s13))) ^ 2
        let L4E := conv * L / (4 * E[i])
        1 - s13 * (SinSqTheta12 * sinFn (DeltaMSq32signed * L4E) ^ 2
            + CosSqTheta12 * sinFn (DeltaMSq31 * L4E) ^ 2)
          - s12 * CosQuTheta13 * sinFn (dm21 * L4E) ^ 2) := by
  rw [_osc_prob, getElem?_map_of_lt _ _ i hi]
  simp only [oscProbElem, div_div]

/-- C3 witness: the theorem applied at `sinFn = sqStub45`, `sq = sqStub967`
and concrete scalar inputs with `E = [4]`, `i = 0`. -/
theorem osc_prob_formula_C3_witness :
    (_osc_prob sqStub45 sqStub967 [4] 2 1 1 1 1 1 8)[0]? =
      some (
        let DeltaMSq32signed := (1:ℚ) * 1
        let DeltaMSq31 := (1:ℚ) * 1 + 1
        let SinSqTheta12 := 1/2 * (1 - sqStub967 (1 - 1))
        let CosSqTheta12 := 1 - SinSqTheta12
        let CosQuTheta13 := (1/2 * (1 - sqStub967 (1 - 1))) ^ 2
        let L4E := (8:ℚ) * 2 / (4 * 4)
        1 - 1 * (SinSqTheta12 * sqStub45 (DeltaMSq32signed * L4E) ^ 2
            + CosSqTheta12 * sqStub45 (DeltaMSq31 * L4E) ^ 2)
          - 1 * CosQuTheta13 * sqStub45 (1 * L4E) ^ 2) := by
  exact osc_prob_formula_C3 sqStub45 sqStub967 [4] 2 1 1 1 1 1 8 0 (by norm_num)

/-- C4: at or below the threshold the velocity term is exactly `0`, the
square root is never consulted (the element value does not depend on the
square-root primitive), and the stricter `reactornueosc` variant clamps the
energy to the electron rest mass; the `dgf_reactoranueosc` variant keeps the
unclamped energy with a zero velocity and equally never consults the square
root. -/
theorem enu_below_threshold_C4 (sq sq2 : ℚ → ℚ) (me mp mn : ℚ) (flag : Bool)
    (Ee ctheta : ℚ) (hle : eeAdjusted me flag Ee ≤ me) :
    enuVe sq me (eeAdjusted me flag Ee) = 0
    ∧ enuEeClamped me (eeAdjusted me flag Ee) = me
    ∧ enuElem sq me mp mn flag Ee ctheta = enuElem sq2 me mp mn flag Ee ctheta
    ∧ enuElemDgf sq me mp mn flag Ee ctheta =
        (eeAdjusted me flag Ee + 1/2 * (mn * mn - mp * mp - me * me) / mp) /
          (1 - eeAdjusted me flag Ee / mp * (1 - 0 * ctheta))
    ∧ enuElemDgf sq me mp mn flag Ee ctheta = enuElemDgf sq2 me mp mn flag Ee ctheta := by
  have hnot : ¬ (eeAdjusted me flag Ee > me) := not_lt.mpr hle
  refine ⟨?_, ?_, ?_, ?_, ?_⟩
  · rw [enuVe, if_neg hnot]
  · rw [enuEeClamped, if_neg hnot]
  · simp only [enuElem, enuEe0, enuCorr, enuVe, enuEeClamped, if_neg hnot]
  · simp only [enuElemDgf, if_neg hnot]
  · simp only [enuElemDgf, if_neg hnot]

/-- C4 witness: the theorem applied at `sq = sqStub45`, `sq2 = sqStub967`,
`me = 3`, `mp = 10`, `mn = 3`, `Ee = 2`, `ctheta = 1`. -/
theorem enu_below_threshold_C4_witness :
    enuVe sqStub45 3 (eeAdjusted 3 false 2) = 0
    ∧ enuEeClamped 3 (eeAdjusted 3 false 2) = 3
    ∧ enuElem sqStub45 3 10 3 false 2 1 = enuElem sqStub967 3 10 3 false 2 1
    ∧ enuElemDgf sqStub45 3 10 3 false 2 1 =
        (eeAdjusted 3 false 2 + 1/2 * ((3:ℚ) * 3 - 10 * 10 - 3 * 3) / 10) /
          (1 - eeAdjusted 3 false 2 / 10 * (1 - 0 * 1))
    ∧ enuElemDgf sqStub45 3 10 3 false 2 1 = enuElemDgf sqStub967 3 10 3 false 2 1 :=
  enu_below_threshold_C4 sqStub45 sqStub967 3 10 3 false 2 1 (by norm_num [eeAdjusted])

/-- A `zipWith` is determined by the pointwise values of its function on the
operand lists. -/
lemma zipWith_congr_getElem {α β γ : Type} (f g : α → β → γ) (l1 : List α) (l2 : List β)
    (h : ∀ i (h1 : i < l1.length) (h2 : i < l2.length), f l1[i] l2[i] = g l1[i] l2[i]) :
    List.zipWith f l1 l2 = List.zipWith g l1 l2 := by
  induction l1 generalizing l2 with
  | nil => simp
  | cons a t ih =>
    cases l2 with
    | nil => simp
    | cons b t2 =>
      simp only [List.zipWith]
      refine congrArg₂ _ (h 0 (by simp) (by simp)) (ih t2 ?_)
      intro i h1 h2
      have := h (i + 1) (by simpa using Nat.succ_lt_succ h1) (by simpa using Nat.succ_lt_succ h2)
      simpa using this

/-- Above the threshold the clamping and non-clamping energy-transform
elements coincide. -/
lemma enuElem_eq_dgf_of_lt (sq : ℚ → ℚ) (me mp mn : ℚ) (flag : Bool) (Ee ctheta : ℚ)
    (h : me < eeAdjusted me flag Ee) :
    enuElem sq me mp mn flag Ee ctheta = enuElemDgf sq me mp mn flag Ee ctheta := by
  rw [enuElem_of_lt sq me mp mn flag Ee ctheta h]
  simp only [enuElemDgf, if_pos h]
  simp only [pow_two]

/-- C10: on inputs all of whose flag-adjusted energies strictly exceed the
electron rest mass, the `reactornueosc` (clamping) and `dgf_reactoranueosc`
(non-clamping) energy-transform kernels write identical results. -/
theorem enu_variants_agree_above_threshold_C10 (sq : ℚ → ℚ) (me mp mn : ℚ) (flag : Bool)
    (EeIn CosThetaIn : List ℚ)
    (h : ∀ i (hi : i < EeIn.length), me < eeAdjusted me flag EeIn[i]) :
    _enu sq EeIn CosThetaIn me mp mn flag = _enu_dgf sq EeIn CosThetaIn me mp mn flag := by
  rw [_enu, _enu_dgf]
  apply zipWith_congr_getElem
  intro i h1 h2
  exact enuElem_eq_dgf_of_lt sq me mp mn flag EeIn[i] CosThetaIn[i] (h i h1)

/-- C10 witness: the theorem applied at `sq = sqStub45`, `me = 3`, `mp = 10`,
`mn = 3`, `EeIn = [5]`, `CosThetaIn = [0]`. -/
theorem enu_variants_agree_above_threshold_C10_witness :
    _enu sqStub45 [5] [0] 3 10 3 false = _enu_dgf sqStub45 [5] [0] 3 10 3 false :=
  enu_variants_agree_above_threshold_C10 sqStub45 3 10 3 false [5] [0]
    (by
      intro i hi
      have : i = 0 := by simpa using hi
      subst this
      norm_num [eeAdjusted])

/-- C6 counterexample: at `ElectronMass = 3`, `ProtonMass = 10`,
`NeutronMass = 3`, `Ee = 5`, `ctheta = -5/4` the denominator `corr` is
exactly `0` while `Ee0` is also `0`, so the kernel writes the IEEE result of
`0.0/0.0`, which is NaN, not an infinity (the velocity here is
`sqrt(16/25) = 4/5`, where the stub agrees with the real square root). -/
theorem enu_corr_zero_C6_counterexample :
    enuCorr sqStub45 3 10 false 5 (-5/4) = 0
    ∧ (enuElemFp sqStub45 3 10 3 false 5 (-5/4)).isInfinite = false := by
  constructor
  · norm_num [enuCorr, enuEeClamped, enuVe, eeAdjusted, sqStub45]
  · norm_num [enuElemFp, fpdiv, enuEe0, enuCorr, enuEeClamped, enuVe, enuDelta,
      eeAdjusted, sqStub45, FpVal.isInfinite]

/-- C6 (amended): the energy-transform kernel applies no division-by-zero
guard on `corr`: every zipped element is written and each written value is
the IEEE classification of `Ee0/corr`; where `corr = 0` and `Ee0 ≠ 0` the
written value is infinite (where also `Ee0 = 0` it is NaN, still neither an
error nor a substituted value). -/
theorem enu_no_corr_guard_C6 (sq : ℚ → ℚ) (me mp mn : ℚ) (flag : Bool)
    (EeIn CosThetaIn : List ℚ) :
    (enuFp sq EeIn CosThetaIn me mp mn flag).length = min EeIn.length CosThetaIn.length
    ∧ (∀ (i : ℕ) (h1 : i < EeIn.length) (h2 : i < CosThetaIn.length),
        (enuFp sq EeIn CosThetaIn me mp mn flag)[i]? =
          some (fpdiv (enuEe0 me mp mn flag EeIn[i])
            (enuCorr sq me mp flag EeIn[i] CosThetaIn[i])))
    ∧ (∀ Ee ctheta : ℚ, enuCorr sq me mp flag Ee ctheta = 0 →
        enuEe0 me mp mn flag Ee ≠ 0 →
        (enuElemFp sq me mp mn flag Ee ctheta).isInfinite = true) := by
  refine ⟨?_, ?_, ?_⟩
  · simp [enuFp, List.length_zipWith]
  · intro i h1 h2
    rw [enuFp, getElem?_zipWith_of_lt _ _ _ i h1 h2]
    rfl
  · intro Ee c hc h0
    rw [enuElemFp, hc, fpdiv]
    rcases lt_trichotomy (enuEe0 me mp mn flag Ee) 0 with h | h | h
    · rw [if_neg (fun hh => hh rfl), if_neg (not_lt.mpr (le_of_lt h)), if_pos h]
      rfl
    · exact absurd h h0
    · rw [if_neg (fun hh => hh rfl), if_pos h]
      rfl

/-- C6 witness: the amended theorem applied at `sq = sqStub45`, `me = 3`,
`mp = 10`, `mn = 10`, `EeIn = [5]`, `CosThetaIn = [-5/4]`; there `corr = 0`
and `Ee0 = 91/20 ≠ 0`, so the element is infinite. -/
theorem enu_no_corr_guard_C6_witness :
    (enuFp sqStub45 [5] [-5/4] 3 10 10 false)[0]? =
      some (fpdiv (enuEe0 3 10 10 false 5) (enuCorr sqStub45 3 10 false 5 (-5/4)))
    ∧ (enuElemFp sqStub45 3 10 10 false 5 (-5/4)).isInfinite = true := by
  constructor
  · exact (enu_no_corr_guard_C6 sqStub45 3 10 10 false [5] [-5/4]).2.1 0
      (by norm_num) (by norm_num)
  · exact (enu_no_corr_guard_C6 sqStub45 3 10 10 false [5] [-5/4]).2.2 5 (-5/4)
      (by norm_num [enuCorr, enuEeClamped, enuVe, eeAdjusted, sqStub45])
      (by norm_num [enuEe0, enuEeClamped, enuDelta, eeAdjusted])

/-- C7 counterexample: at the PDG masses, kinetic `Ee = 2000 > ElectronMass`,
`ctheta = 0 ∈ [-1,1]`, the denominator `corr` is nonzero (it is negative) and
the energy-transform output is strictly negative, not positive (the velocity
value is multiplied by `ctheta = 0`, so the square-root stub does not affect
the result). -/
theorem enu_positive_C7_counterexample :
    electronMassPDG < 2000
    ∧ ((-1:ℚ) ≤ 0 ∧ (0:ℚ) ≤ 1)
    ∧ enuCorr sqStub45 electronMassPDG protonMassPDG false 2000 0 ≠ 0
    ∧ enuElem sqStub45 electronMassPDG protonMassPDG neutronMassPDG false 2000 0 < 0 := by
  refine ⟨by norm_num [electronMassPDG], ⟨by norm_num, by norm_num⟩, ?_, ?_⟩
  · norm_num [enuCorr, enuEeClamped, enuVe, eeAdjusted, sqStub45, electronMassPDG,
      protonMassPDG]
  · norm_num [enuElem, enuEe0, enuCorr, enuEeClamped, enuVe, enuDelta, eeAdjusted,
      sqStub45, electronMassPDG, protonMassPDG, neutronMassPDG]

/-- C7 (amended): for positive masses with `mn^2 ≥ mp^2 + me^2` and every
element with flag-adjusted energy above the electron rest mass and
`ctheta ∈ [-1,1]`, the output is finite whenever `corr ≠ 0`, and strictly
positive whenever `corr > 0`. -/
theorem enu_finite_positive_C7 (sq : ℚ → ℚ) (me mp mn : ℚ) (flag : Bool)
    (Ee ctheta : ℚ) (hme : 0 < me) (hmp : 0 < mp) (hmn : mp ^ 2 + me ^ 2 ≤ mn ^ 2)
    (hc1 : -1 ≤ ctheta) (hc2 : ctheta ≤ 1) (hE : me < eeAdjusted me flag Ee) :
    (enuCorr sq me mp flag Ee ctheta ≠ 0 →
      (enuElemFp sq me mp mn flag Ee ctheta).isFinite = true)
    ∧ (0 < enuCorr sq me mp flag Ee ctheta →
      0 < enuElem sq me mp mn flag Ee ctheta) := by
  constructor
  · intro h
    rw [enuElemFp, fpdiv, if_pos h]
    rfl
  · intro h
    rw [enuElem]
    apply div_pos ?_ h
    rw [enuEe0, enuEeClamped, if_pos hE, enuDelta]
    have h1 : 0 < eeAdjusted me flag Ee := hme.trans hE
    have h2 : (0:ℚ) ≤ mn ^ 2 - mp ^ 2 - me ^ 2 := by linarith
    have h3 : (0:ℚ) ≤ 1/2 * (mn ^ 2 - mp ^ 2 - me ^ 2) / mp :=
      div_nonneg (mul_nonneg (by norm_num) h2) (le_of_lt hmp)
    linarith

/-- C7 witness: the amended theorem applied at `sq = sqStub45`, `me = 3`,
`mp = 100`, `mn = 101`, `Ee = 5`, `ctheta = 0`. -/
theorem enu_finite_positive_C7_witness :
    ((enuCorr sqStub45 3 100 false 5 0 ≠ 0 →
      (enuElemFp sqStub45 3 100 101 false 5 0).isFinite = true)
    ∧ (0 < enuCorr sqStub45 3 100 false 5 0 →
      0 < enuElem sqStub45 3 100 101 false 5 0)) :=
  enu_finite_positive_C7 sqStub45 3 100 101 false 5 0 (by norm_num) (by norm_num)
    (by norm_num) (by norm_num) (by norm_num) (by norm_num [eeAdjusted])

/-- C9 counterexample: with the PDG masses and kinetic `Ee = 2.0`, the
energy-transform result at `ctheta = -1` is strictly larger, not smaller,
than the result at `ctheta = 1` (the stub velocity `96681/100000` lies in
`(0,1]`, as the real `sqrt(1 - me^2/4)` does; the amended theorem below shows
the same strict ordering for every velocity value in `(0,1]`). -/
theorem enu_ctheta_order_C9_counterexample :
    enuElem sqStub967 electronMassPDG protonMassPDG neutronMassPDG false 2 1
      < enuElem sqStub967 electronMassPDG protonMassPDG neutronMassPDG false 2 (-1) := by
  norm_num [enuElem, enuEe0, enuCorr, enuEeClamped, enuVe, enuDelta, eeAdjusted,
    sqStub967, electronMassPDG, protonMassPDG, neutronMassPDG]

/-- C9 (amended): with the PDG masses and kinetic `Ee = 2.0`, for any value
of the square root of `1 - me^2/4` lying in `(0, 1]` (as the real square root
does), the energy-transform result at `ctheta = -1.0` is strictly larger
than the result at `ctheta = 1.0`. -/
theorem enu_ctheta_order_C9 (sq : ℚ → ℚ)
    (h1 : 0 < sq (1 - electronMassPDG ^ 2 / ((2:ℚ) * 2)))
    (h2 : sq (1 - electronMassPDG ^ 2 / ((2:ℚ) * 2)) ≤ 1) :
    enuElem sq electronMassPDG protonMassPDG neutronMassPDG false 2 1
      < enuElem sq electronMassPDG protonMassPDG neutronMassPDG false 2 (-1) := by
  have hE : electronMassPDG < eeAdjusted electronMassPDG false 2 := by
    norm_num [eeAdjusted, electronMassPDG]
  rw [enuElem_of_lt _ _ _ _ _ _ _ hE, enuElem_of_lt _ _ _ _ _ _ _ hE]
  have he : eeAdjusted electronMassPDG false 2 = (2:ℚ) := rfl
  rw [he]
  set v := sq (1 - electronMassPDG ^ 2 / ((2:ℚ) * 2)) with hv
  have hA : 0 < 2 + 1/2 * (neutronMassPDG ^ 2 - protonMassPDG ^ 2 - electronMassPDG ^ 2) /
      protonMassPDG := by
    norm_num [electronMassPDG, protonMassPDG, neutronMassPDG]
  have hk1 : (0:ℚ) < 2 / protonMassPDG := by norm_num [protonMassPDG]
  have hk2 : (2:ℚ) / protonMassPDG * 2 < 1 := by norm_num [protonMassPDG]
  have hd2 : 0 < 1 - 2 / protonMassPDG * (1 - v * (-1)) := by nlinarith
  have hlt : 1 - 2 / protonMassPDG * (1 - v * (-1)) < 1 - 2 / protonMassPDG * (1 - v * 1) := by
    nlinarith
  exact div_lt_div_of_pos_left hA hd2 hlt

/-- C9 witness: the amended theorem applied at `sq = sqStub967`, whose value
`96681/100000` lies in `(0, 1]`. -/
theorem enu_ctheta_order_C9_witness :
    enuElem sqStub967 electronMassPDG protonMassPDG neutronMassPDG false 2 1
      < enuElem sqStub967 electronMassPDG protonMassPDG neutronMassPDG false 2 (-1) :=
  enu_ctheta_order_C9 sqStub967 (by norm_num [sqStub967]) (by norm_num [sqStub967])

/-- The baseline-scale dictionary of
`reactornueosc/NueSurvivalProbability.py::NueSurvivalProbability.__init__`. -/
def baselineScaleTable : List (String × ℚ) := [("km", 1), ("m", 1/1000)]

/-- Construction of `NueSurvivalProbability`: the baseline scale is looked up
in the dictionary and an unknown distance unit raises
`RuntimeError(f"Invalid distance unit {distance_unit}")`. -/
def nueSurvivalProbabilityInit (distance_unit : String) : Except String ℚ :=
  match baselineScaleTable.lookup distance_unit with
  | some s => Except.ok s
  | none => Except.error ("Invalid distance unit " ++ distance_unit)

/-- The compute callback
`reactornueosc/NueSurvivalProbability.py::NueSurvivalProbability._fcn`: it
resolves the optional conversion input against the default and calls the
kernel with `L * baseline_scale`. -/
def nueSurvivalProbabilityFcn (sinFn sq : ℚ → ℚ) (baseline_scale : ℚ) (E : List ℚ)
    (L s12 s13 dm21 dm32 nmo : ℚ) (conversionInput : Option ℚ)
    (defaultConversion : ℚ) : List ℚ :=
  let oscprobArgConversion :=
    match conversionInput with
    | some c => c
    | none => defaultConversion
  _osc_prob sinFn sq E (L * baseline_scale) s12 s13 dm21 dm32 nmo oscprobArgConversion

/-- C8: constructing the oscillation-probability node succeeds exactly for
distance units "km" and "m" and fails with an error otherwise; on success
the baseline read at compute time is multiplied by exactly `1` for "km" and
by exactly `1/1000` for "m" before being passed to the kernel. -/
theorem nue_surv_distance_unit_C8 :
    (∀ u : String, (∃ s, nueSurvivalProbabilityInit u = Except.ok s) ↔
      (u = "km" ∨ u = "m"))
    ∧ nueSurvivalProbabilityInit "km" = Except.ok 1
    ∧ nueSurvivalProbabilityInit "m" = Except.ok (1/1000)
    ∧ (∀ (sinFn sq : ℚ → ℚ) (E : List ℚ) (L s12 s13 dm21 dm32 nmo : ℚ)
        (ci : Option ℚ) (d s : ℚ),
        nueSurvivalProbabilityInit "km" = Except.ok s →
        nueSurvivalProbabilityFcn sinFn sq s E L s12 s13 dm21 dm32 nmo ci d =
          _osc_prob sinFn sq E (L * 1) s12 s13 dm21 dm32 nmo (ci.getD d))
    ∧ (∀ (sinFn sq : ℚ → ℚ) (E : List ℚ) (L s12 s13 dm21 dm32 nmo : ℚ)
        (ci : Option ℚ) (d s : ℚ),
        nueSurvivalProbabilityInit "m" = Except.ok s →
        nueSurvivalProbabilityFcn sinFn sq s E L s12 s13 dm21 dm32 nmo ci d =
          _osc_prob sinFn sq E (L * (1/1000)) s12 s13 dm21 dm32 nmo (ci.getD d)) := by
  refine ⟨?_, rfl, rfl, ?_, ?_⟩
  · intro u
    constructor
    · rintro ⟨s, hs⟩
      by_cases hk : u = "km"
      · exact Or.inl hk
      by_cases hm : u = "m"
      · exact Or.inr hm
      · exfalso
        have e1 : (u == ("km" : String)) = false := beq_eq_false_iff_ne.mpr hk
        have e2 : (u == ("m" : String)) = false := beq_eq_false_iff_ne.mpr hm
        simp [nueSurvivalProbabilityInit, baselineScaleTable, List.lookup, e1, e2] at hs
    · rintro (rfl | rfl)
      · exact ⟨1, rfl⟩
      · exact ⟨1/1000, rfl⟩
  · intro sinFn sq E L s12 s13 dm21 dm32 nmo ci d s hs
    have h1 : (1:ℚ) = s := by
      simpa [nueSurvivalProbabilityInit, baselineScaleTable, List.lookup] using hs
    subst h1
    cases ci <;> rfl
  · intro sinFn sq E L s12 s13 dm21 dm32 nmo ci d s hs
    have h1 : (1/1000:ℚ) = s := by
      simpa [nueSurvivalProbabilityInit, baselineScaleTable, List.lookup] using hs
    subst h1
    cases ci <;> rfl

/-- C8 witness: the compute-time conjuncts applied at concrete inputs for
both supported units, with the construction results discharged by `rfl`. -/
theorem nue_surv_distance_unit_C8_witness :
    (nueSurvivalProbabilityFcn sqStub45 sqStub45 1 [4] 2 1 1 1 1 1 none 8 =
      _osc_prob sqStub45 sqStub45 [4] ((2:ℚ) * 1) 1 1 1 1 1 (Option.getD none 8))
    ∧ (nueSurvivalProbabilityFcn sqStub45 sqStub45 (1/1000) [4] 2 1 1 1 1 1 (some 7) 8 =
      _osc_prob sqStub45 sqStub45 [4] ((2:ℚ) * (1/1000)) 1 1 1 1 1 (Option.getD (some 7) 8)) :=
  ⟨nue_surv_distance_unit_C8.2.2.2.1 sqStub45 sqStub45 [4] 2 1 1 1 1 1 none 8 1 rfl,
   nue_surv_distance_unit_C8.2.2.2.2 sqStub45 sqStub45 [4] 2 1 1 1 1 1 (some 7) 8 (1/1000) rfl⟩

/-- Modelled from the spec: the port-registration step of the composite
node's `_add_node` (the `MetaNode` implementation lives in the external
`dagflow` package, not under `src/`). For each keyword input of the member
being added, in order: a name listed in `merge_inputs` joins the existing
parent-level port of that name when one exists; otherwise a fresh
parent-level port of that name is created holding just this member port.
The table maps each parent-level port name to the member-level input ports
(member node name, port name) bound to it. -/
def addNodeInputs (table : List (String × List (String × String)))
    (node : String) (kw_inputs merge_inputs : List String) :
    List (String × List (String × String)) :=
  kw_inputs.foldl
    (fun t nm =>
      if nm ∈ merge_inputs ∧ (t.lookup nm).isSome then
        t.map (fun e => if e.1 = nm then (e.1, e.2 ++ [(node, nm)]) else e)
      else t ++ [(nm, [(node, nm)])])
    table

/-- The energy input-port name of the composite group: "edep" when the
deposited-energy flag is set, "ee" otherwise. -/
def ibdEeName (use_edep : Bool) : String := if use_edep then "edep" else "ee"

/-- `inputs_common` of `IBDXsecVBO1Group.__init__`: the three shared mass
parameters. -/
def ibdInputsCommon : List String := ["ElectronMass", "ProtonMass", "NeutronMass"]

/-- The parent-level input-port table built by
`reactornueosc/IBDXsecVBO1Group.py::IBDXsecVBO1Group.__init__` (the
`dgf_reactoranueosc` variant passes identical lists): the three `_add_node`
calls for the cross-section node, the energy-transform node and the Jacobian
node, with each member's keyword inputs and merge list exactly as in the
source (`merge_inputs[:-1]` drops "NeutronMass", which the Jacobian node does
not declare). -/
def ibdGroupInputTable (use_edep : Bool) : List (String × List (String × String)) :=
  let merge_inputs := [ibdEeName use_edep, "costheta"] ++ ibdInputsCommon
  addNodeInputs
    (addNodeInputs
      (addNodeInputs []
        "ibd"
        (["costheta"] ++ ibdInputsCommon ++
          ["NeutronLifeTime", "PhaseSpaceFactor", "g", "f", "f2"])
        merge_inputs)
      "enu" ([ibdEeName use_edep, "costheta"] ++ ibdInputsCommon) merge_inputs)
    "jacobian" (["enu", ibdEeName use_edep, "costheta"] ++ ibdInputsCommon.dropLast)
    merge_inputs.dropLast

/-- Connecting a producer to a parent-level port assigns its value to every
member-level port bound to that parent port. -/
def connectParentPort (table : List (String × List (String × String)))
    (nm : String) (producer : ℚ) : List ((String × String) × ℚ) :=
  ((table.lookup nm).getD []).map (fun p => (p, producer))

/-- C5: in the composite IBD group each merged parameter name (the energy
input, "costheta", "ElectronMass", "ProtonMass", "NeutronMass") is
registered exactly once at parent level and is bound to the corresponding
input port of every member node that declares it — the energy input to the
energy-transform and Jacobian members, "NeutronMass" to the cross-section
and energy-transform members, the rest to all three members — and
connecting one producer to a parent-level port hands the same value to
every member port bound to it. -/
theorem ibd_group_merged_ports_C5 (use_edep : Bool) :
    ibdGroupInputTable use_edep =
      [("costheta",
          [("ibd", "costheta"), ("enu", "costheta"), ("jacobian", "costheta")]),
       ("ElectronMass",
          [("ibd", "ElectronMass"), ("enu", "ElectronMass"), ("jacobian", "ElectronMass")]),
       ("ProtonMass",
          [("ibd", "ProtonMass"), ("enu", "ProtonMass"), ("jacobian", "ProtonMass")]),
       ("NeutronMass", [("ibd", "NeutronMass"), ("enu", "NeutronMass")]),
       ("NeutronLifeTime", [("ibd", "NeutronLifeTime")]),
       ("PhaseSpaceFactor", [("ibd", "PhaseSpaceFactor")]),
       ("g", [("ibd", "g")]),
       ("f", [("ibd", "f")]),
       ("f2", [("ibd", "f2")]),
       (ibdEeName use_edep,
          [("enu", ibdEeName use_edep), ("jacobian", ibdEeName use_edep)]),
       ("enu", [("jacobian", "enu")])]
    ∧ (∀ (nm : String) (v : ℚ) (q : (String × String) × ℚ),
        q ∈ connectParentPort (ibdGroupInputTable use_edep) nm v → q.2 = v) := by
  constructor
  · cases use_edep <;> rfl
  · intro nm v q hq
    rcases List.mem_map.mp hq with ⟨p, _, rfl⟩
    rfl

/-- C5 witness: connecting the value `5` once to the parent-level
"ElectronMass" port of the group built with `use_edep = false` hands `5` to
the member-level "ElectronMass" port of the cross-section member. -/
theorem ibd_group_merged_ports_C5_witness :
    ((("ibd", "ElectronMass"), (5:ℚ))).2 = 5 :=
  (ibd_group_merged_ports_C5 false).2 "ElectronMass" 5 (("ibd", "ElectronMass"), 5)
    (by
      have h : connectParentPort (ibdGroupInputTable false) "ElectronMass" 5 =
          [(("ibd", "ElectronMass"), 5), (("enu", "ElectronMass"), 5),
           (("jacobian", "ElectronMass"), 5)] := rfl
      rw [h]
      simp)
